import Mathlib

/-!
Shallow embedding of the Khet / Laser-Chess engine found in
laserChess/laser_model.py and laserChess/laser_controller.py.

Modelling conventions:
* Tokens are identified by their index into the game's token list,
  mirroring Python object identity; a square stores the occupant's index.
* The mutually recursive beam resolver (reflect_beam / hitToken / reflect)
  is modelled with an explicit fuel parameter.  A result flag of false
  means the Python code would still be running after that many calls;
  true means the call returned.
* The event log: Python appends and pops at the end of a list; here the
  log is kept most-recent-first, so a push is a cons and a pop reads the
  head.  This is the same stack discipline.
* Evaluation values (Python floats) are modelled with exact rationals;
  every numeric literal of the source (1e10, 2e10, 1e4, 7.5e4) is an
  exactly representable value.
-/

namespace LaserChess

/-- Color enum of laser_model.py. -/
inductive Color
  | none
  | blue
  | red
deriving DecidableEq, Inhabited

/-- Orientation enum of laser_model.py (right=0, up=1, left=2, down=3). -/
inductive Orientation
  | right
  | up
  | left
  | down
deriving DecidableEq, Inhabited

/-- The IntEnum value of an orientation. -/
def Orientation.val : Orientation → Nat
  | .right => 0
  | .up => 1
  | .left => 2
  | .down => 3

/-- Orientation(n) for n already reduced mod 4 (the source always applies % 4
or passes an enum value before constructing). -/
def Orientation.ofVal (n : Nat) : Orientation :=
  match n % 4 with
  | 0 => .right
  | 1 => .up
  | 2 => .left
  | _ => .down

/-- The piece kinds: the concrete Token subclasses of laser_model.py
(the value of the name attribute each constructor sets). -/
inductive TokenName
  | queen
  | defender
  | deflector
  | switch
  | laser
deriving DecidableEq, Inhabited

/-- A Token object: row, column, color, destroyed flag, orientation.
Queen.__init__ sets orientation to up, so every concrete token has one. -/
structure Token where
  name : TokenName
  row : Nat
  column : Nat
  color : Color
  destroyed : Bool
  orientation : Orientation
deriving DecidableEq, Inhabited

/-- A Square: static home-zone color, occupant (token index), highlight flag.
The row/column attributes of the Python object are implicit in the square's
position inside the board lists (they are set once and never change). -/
structure Square where
  color : Color
  inhabiting_token : Option Nat
  highlighted : Bool
deriving DecidableEq, Inhabited

/-- The board: 8 rows of 10 squares (Board.squares). -/
abbrev BoardT := List (List Square)

/-- Entries of Game.positions_log: coordinate pairs and the two marker
strings the source appends. -/
inductive PosEntry
  | pos (row col : Int)
  | out
  | destroyedMark
deriving DecidableEq, Inhabited

/-- Entries of Game.log.  A move entry stores the start square by its
coordinates (the Python code stores the Square object; square coordinates
never change, so the pair identifies it). -/
inductive LogEntry
  | move (token : Nat) (row col : Nat)
  | rotation (token : Nat) (orientation : Orientation)
  | destruction (token : Nat)
deriving DecidableEq, Inhabited

/-- Actions as produced by Game.getAllPossibleActions: a move to a square
(identified by coordinates) or a rotation to a new orientation. -/
inductive Action
  | move (token : Nat) (row column : Nat)
  | rotation (token : Nat) (orientation : Orientation)
deriving DecidableEq, Inhabited

/-- The mutable state of a Game object. -/
structure GameState where
  board : BoardT
  tokens : List Token
  log : List LogEntry
  turn : Nat
  positions_log : List PosEntry
deriving DecidableEq, Inhabited

/-- board.squares[r][c] -/
def getSquare (b : BoardT) (r c : Nat) : Square :=
  (b.getD r []).getD c default

/-- Write the occupant field of squares[r][c]. -/
def setInh (b : BoardT) (r c : Nat) (v : Option Nat) : BoardT :=
  b.set r ((b.getD r []).set c { getSquare b r c with inhabiting_token := v })

/-- Write the highlighted field of squares[r][c]. -/
def setHighlighted (b : BoardT) (r c : Nat) (v : Bool) : BoardT :=
  b.set r ((b.getD r []).set c { getSquare b r c with highlighted := v })

/-- Fetch a token by index. -/
def getToken (s : GameState) (i : Nat) : Token :=
  s.tokens.getD i default

/-- Replace a token by index. -/
def setToken (s : GameState) (i : Nat) (t : Token) : GameState :=
  { s with tokens := s.tokens.set i t }

/-- Game.is_destroyed(token, direction): whether a beam travelling in
direction destroys the struck token.  Note how the final else branch of
the source covers every name other than queen, switch and defender, i.e.
both deflector and laser. -/
def is_destroyed (t : Token) (direction : Orientation) : Bool :=
  match t.name with
  | .queen => true
  | .switch => false
  | .defender =>
      if (direction = .right ∧ t.orientation = .left)
          ∨ (direction = .left ∧ t.orientation = .right)
          ∨ (direction = .up ∧ t.orientation = .down)
          ∨ (direction = .down ∧ t.orientation = .up) then
        false
      else
        true
  | _ =>
      if (direction = .right ∧ t.orientation = .left)
          ∨ (direction = .right ∧ t.orientation = .up)
          ∨ (direction = .left ∧ t.orientation = .right)
          ∨ (direction = .left ∧ t.orientation = .down)
          ∨ (direction = .up ∧ t.orientation = .down)
          ∨ (direction = .up ∧ t.orientation = .left)
          ∨ (direction = .down ∧ t.orientation = .up)
          ∨ (direction = .down ∧ t.orientation = .right) then
        false
      else
        true

/-- The rotation dictionary of Laser.getPossibleRotations. -/
def laserRotationOf : Orientation → Orientation
  | .right => .down
  | .down => .right
  | .left => .up
  | .up => .left

/-- getPossibleRotations of each concrete Token subclass.  Deflector and
Defender return the Python values (v - 1) % 4 and (v + 1) % 4 (Python %
is the nonnegative remainder); Switch returns 1 - v % 2; Queen returns
the empty list; Laser returns the single paired orientation. -/
def Token.getPossibleRotations (t : Token) : List Orientation :=
  match t.name with
  | .queen => []
  | .deflector =>
      [Orientation.ofVal ((((t.orientation.val : Int) - 1) % 4).toNat),
       Orientation.ofVal ((((t.orientation.val : Int) + 1) % 4).toNat)]
  | .defender =>
      [Orientation.ofVal ((((t.orientation.val : Int) - 1) % 4).toNat),
       Orientation.ofVal ((((t.orientation.val : Int) + 1) % 4).toNat)]
  | .switch => [Orientation.ofVal (1 - t.orientation.val % 2)]
  | .laser => [laserRotationOf t.orientation]

/-- RotatableToken.rotateClockwise: orientation becomes (v - 1) % 4, except
Laser overrides it with getPossibleRotations()[0].  Queen (and the bare
Token base class) has no such method, which is modelled as none. -/
def rotateClockwise (t : Token) : Option Token :=
  match t.name with
  | .queen => none
  | .laser => some { t with orientation := (Token.getPossibleRotations t).headD t.orientation }
  | _ => some { t with orientation := Orientation.ofVal ((((t.orientation.val : Int) - 1) % 4).toNat) }

/-- RotatableToken.rotateAntiClockwise: orientation becomes (v + 1) % 4,
except Laser overrides it with getPossibleRotations()[0]. -/
def rotateAntiClockwise (t : Token) : Option Token :=
  match t.name with
  | .queen => none
  | .laser => some { t with orientation := (Token.getPossibleRotations t).headD t.orientation }
  | _ => some { t with orientation := Orientation.ofVal ((((t.orientation.val : Int) + 1) % 4).toNat) }

/-- Game.moveToken(token, end_square, forward): Token.move updates the
token's coordinates, empties the start square and fills the end square;
if forward, a move entry recording the start square is pushed. -/
def moveToken (s : GameState) (i : Nat) (er ec : Nat) (forward : Bool) : GameState :=
  let t := getToken s i
  let sr := t.row
  let sc := t.column
  let s1 := setToken s i { t with row := er, column := ec }
  let s2 := { s1 with board := setInh (setInh s1.board sr sc none) er ec (some i) }
  if forward then { s2 with log := .move i sr sc :: s2.log } else s2

/-- Game.rotateToken(token, orientation, forward): changeOrientation sets
the new orientation (the source's % 4 is the identity on an enum value);
if forward, a rotation entry recording the start orientation is pushed. -/
def rotateToken (s : GameState) (i : Nat) (o : Orientation) (forward : Bool) : GameState :=
  let t := getToken s i
  let start_orientation := t.orientation
  let s1 := setToken s i { t with orientation := o }
  if forward then { s1 with log := .rotation i start_orientation :: s1.log } else s1

/-- Game.doAction(action). -/
def doAction (s : GameState) (a : Action) : GameState :=
  match a with
  | .move i r c => moveToken s i r c true
  | .rotation i o => rotateToken s i o true

/-- The body of Game.undoLastEvent, structurally recursive on the log:
pop one entry; a move or rotation entry is undone with forward=False; a
destruction entry resets the destroyed flag (and nothing else: the
occupant of the piece's square is not restored by the source) and then
immediately undoes the next entry as well.  Popping an empty log raises
IndexError in Python, modelled as none. -/
def undoAux : List LogEntry → GameState → Option GameState
  | [], _ => none
  | .move i r c :: rest, s => some (moveToken { s with log := rest } i r c false)
  | .rotation i o :: rest, s => some (rotateToken { s with log := rest } i o false)
  | .destruction i :: rest, s =>
      let s' := { s with log := rest }
      undoAux rest (setToken s' i { getToken s' i with destroyed := false })

/-- Game.undoLastEvent(). -/
def undoLastEvent (s : GameState) : Option GameState :=
  undoAux s.log s

/-- The upward while loop of Game.reflect_beam: starting at the given row
(the struck token's own row), read squares[row][col], decrement row, stop
on the first occupant or when row would pass -1.  Returns the occupant
found (if any) and the final value of the row variable. -/
def scanColUp (b : BoardT) (c : Nat) : Nat → Option Nat × Int
  | 0 =>
      match (getSquare b 0 c).inhabiting_token with
      | some j => (some j, -1)
      | none => (none, -1)
  | r + 1 =>
      match (getSquare b (r + 1) c).inhabiting_token with
      | some j => (some j, (r : Int))
      | none => scanColUp b c r

/-- The downward while loop of Game.reflect_beam: rows row, row+1, ...
stopping on the first occupant or when row reaches 8.  First argument is
the loop countdown 8 - row. -/
def scanColDownAux (b : BoardT) (c : Nat) : Nat → Nat → Option Nat × Int
  | 0, r => (none, (r : Int))
  | n + 1, r =>
      match (getSquare b r c).inhabiting_token with
      | some j => (some j, (r : Int) + 1)
      | none => scanColDownAux b c n (r + 1)

def scanColDown (b : BoardT) (c r : Nat) : Option Nat × Int :=
  scanColDownAux b c (8 - r) r

/-- The left/right while loops of Game.reflect_beam.  The source never
advances the column inside these loops, so the same square is read on
every iteration: either its occupant is found at once, or the loop runs
forever (modelled as none when the fuel runs out). -/
def scanStay (b : BoardT) (r c : Nat) : Nat → Option Nat
  | 0 => none
  | n + 1 =>
      match (getSquare b r c).inhabiting_token with
      | some j => some j
      | none => scanStay b r c n

/-- Append entries to positions_log. -/
def pushPos (s : GameState) (es : List PosEntry) : GameState :=
  { s with positions_log := s.positions_log ++ es }

mutual

/-- Game.reflect_beam(token, direction): scan from the struck token's own
coordinates (the source starts at token.row/token.column, not one step
beyond) and resolve the first occupant found; with no occupant, record the
exit position and "out".  A false flag means fuel ran out, i.e. the Python
call would still be running. -/
def reflect_beam (fuel : Nat) (s : GameState) (i : Nat) (direction : Orientation) :
    GameState × Bool :=
  match fuel with
  | 0 => (s, false)
  | n + 1 =>
      let t := getToken s i
      let col := t.column
      let row := t.row
      match direction with
      | .up =>
          match scanColUp s.board col row with
          | (some j, _) => hitToken n s j .up
          | (none, frow) => (pushPos s [.pos frow (col : Int), .out], true)
      | .down =>
          match scanColDown s.board col row with
          | (some j, _) => hitToken n s j .down
          | (none, frow) => (pushPos s [.pos frow (col : Int), .out], true)
      | .left =>
          match scanStay s.board row col (n + 1) with
          | some j => hitToken n s j .left
          | none => (s, false)
      | .right =>
          match scanStay s.board row col (n + 1) with
          | some j => hitToken n s j .right
          | none => (s, false)

/-- Game.hitToken(token_hit, orientation): record the struck position;
if is_destroyed, mark the token destroyed, clear its square, record
"destroyed" and push a destruction log entry; otherwise reflect. -/
def hitToken (fuel : Nat) (s : GameState) (i : Nat) (orientation : Orientation) :
    GameState × Bool :=
  match fuel with
  | 0 => (s, false)
  | n + 1 =>
      let t := getToken s i
      let s1 := pushPos s [.pos (t.row : Int) (t.column : Int)]
      if is_destroyed t orientation then
        let s2 := setToken s1 i { t with destroyed := true }
        let s3 := { s2 with board := setInh s2.board t.row t.column none }
        let s4 := pushPos s3 [.destroyedMark]
        ({ s4 with log := .destruction i :: s4.log }, true)
      else
        reflect n s1 i orientation

/-- Game.reflect(token, direction): the per-kind reflection tables for
switch and deflector; any other kind (defender in its reflect case, or a
laser emitter in a combination its else branch lets through) falls off the
end of the Python function and the beam is absorbed. -/
def reflect (fuel : Nat) (s : GameState) (i : Nat) (direction : Orientation) :
    GameState × Bool :=
  match fuel with
  | 0 => (s, false)
  | n + 1 =>
      let t := getToken s i
      let orientation := t.orientation
      match t.name with
      | .switch =>
          match direction with
          | .right =>
              if orientation = .left ∨ orientation = .right then
                reflect_beam n s i .down
              else
                reflect_beam n s i .up
          | .left =>
              if orientation = .left ∨ orientation = .right then
                reflect_beam n s i .up
              else
                reflect_beam n s i .down
          | .up =>
              if orientation = .left ∨ orientation = .right then
                reflect_beam n s i .left
              else
                reflect_beam n s i .right
          | .down =>
              if orientation = .left ∨ orientation = .right then
                reflect_beam n s i .right
              else
                reflect_beam n s i .left
      | .deflector =>
          match direction with
          | .right =>
              if orientation = .left then
                reflect_beam n s i .down
              else
                reflect_beam n s i .up
          | .left =>
              if orientation = .right then
                reflect_beam n s i .up
              else
                reflect_beam n s i .down
          | .up =>
              if orientation = .left then
                reflect_beam n s i .left
              else
                reflect_beam n s i .right
          | .down =>
              if orientation = .right then
                reflect_beam n s i .right
              else
                reflect_beam n s i .left
      | _ => (s, true)

end

/-- The index of the (first) laser of the given color: the Game keeps
laser_dict references to the two Laser objects it constructed, which are
elements of its token collection. -/
def laserIdx (s : GameState) (c : Color) : Nat :=
  s.tokens.findIdx (fun t => decide (t.name = .laser ∧ t.color = c))

/-- First occupant along an explicit list of cells (the source keeps
scanning but only assigns token_hit while it is still None). -/
def firstHitIdx (b : BoardT) : List (Nat × Nat) → Option Nat
  | [] => none
  | (r, c) :: rest =>
      match (getSquare b r c).inhabiting_token with
      | some j => some j
      | none => firstHitIdx b rest

/-- Game.activate_laser(color): reset positions_log to the emitter's
square, scan the fixed ranges of the source (rows 1..7 below for the red
emitter pointing down, columns 1..9 to the right otherwise; mirrored for
blue), then resolve the first struck token via hitToken or record the
edge exit.  The subtraction row - i in the blue up branch is Nat
subtraction; the blue emitter sits at row 7, so it matches the Python
indices 6..0. -/
def activate_laser (fuel : Nat) (s : GameState) (c : Color) : GameState × Bool :=
  let li := laserIdx s c
  let laser := getToken s li
  let row := laser.row
  let col := laser.column
  let s1 := { s with positions_log := [.pos (row : Int) (col : Int)] }
  let cellsLast : List (Nat × Nat) × (Int × Int) :=
    if laser.color = .red then
      if laser.orientation = .down then
        ((List.range' 1 7).map (fun i => (row + i, col)), ((7 : Int), (col : Int)))
      else
        ((List.range' 1 9).map (fun i => (row, col + i)), ((row : Int), (9 : Int)))
    else
      if laser.orientation = .up then
        ((List.range' 1 7).map (fun i => (row - i, col)), ((0 : Int), (col : Int)))
      else
        ((List.range' 1 9).map (fun i => (row, col - i)), ((row : Int), (0 : Int)))
  match firstHitIdx s1.board cellsLast.1 with
  | some j => hitToken fuel s1 j laser.orientation
  | none => (pushPos s1 [.pos cellsLast.2.1 cellsLast.2.2, .out], true)

/-- Game.getPossibleMoves(token): the 3x3 neighborhood (the source's i, j
from -1 to 1, row-major, including the token's own square, which its
occupancy test then rejects), kept when in bounds, unoccupied and of
neutral or matching home-zone color.  Lasers have no moves. -/
def getPossibleMoves (s : GameState) (i : Nat) : List (Nat × Nat) :=
  let t := getToken s i
  if t.name = .laser then
    []
  else
    let deltas : List (Int × Int) :=
      [(-1, -1), (-1, 0), (-1, 1), (0, -1), (0, 0), (0, 1), (1, -1), (1, 0), (1, 1)]
    deltas.filterMap (fun d =>
      let row : Int := (t.row : Int) + d.1
      let column : Int := (t.column : Int) + d.2
      if row < 0 ∨ row > 7 ∨ column < 0 ∨ column > 9 then
        none
      else
        let sq := getSquare s.board row.toNat column.toNat
        if sq.inhabiting_token = none ∧ (sq.color = .none ∨ sq.color = t.color) then
          some (row.toNat, column.toNat)
        else
          none)

/-- Game.getAllPossibleActions(color): over the non-destroyed tokens of
the color, in token order, all moves then all rotations. -/
def getAllPossibleActions (s : GameState) (color : Color) : List Action :=
  ((List.range s.tokens.length).map (fun i =>
    let t := getToken s i
    if ¬t.destroyed ∧ t.color = color then
      (getPossibleMoves s i).map (fun rc => Action.move i rc.1 rc.2)
        ++ (Token.getPossibleRotations t).map (fun o => Action.rotation i o)
    else
      [])).flatten

/-- The fields of an AI player relevant to the search: its color, the
derived adversary color, the depth limit, and the queen indices
precomputed in AI.__init__ from the game's token collection (that
collection is never reordered, so the indices stay valid). -/
structure AIState where
  color : Color
  adversial_color : Color
  depth_limit : Nat
  queen_index_red : Nat
  queen_index_blue : Nat
deriving DecidableEq, Inhabited

/-- AI.__init__(game, color, depth_limit). -/
def mkAI (g : GameState) (color : Color) (depth_limit : Nat) : AIState :=
  { color := color
    adversial_color := if color = .red then .blue else .red
    depth_limit := depth_limit
    queen_index_red := g.tokens.findIdx (fun t => decide (t.name = .queen ∧ t.color = .red))
    queen_index_blue := g.tokens.findIdx (fun t => decide (t.name = .queen ∧ t.color = .blue)) }

/-- The queen_index dictionary lookup.  The Python dict has keys blue and
red only; Color.none is unreachable there. -/
def AIState.queenIndex (ai : AIState) : Color → Nat
  | .red => ai.queen_index_red
  | .blue => ai.queen_index_blue
  | .none => 0

/-- AI.distance_to_queen(token, tokens): Manhattan distance to the queen
of the token's own color, floored at 1.  (The warning the source emits on
a zero distance has no effect on the value.) -/
def distance_to_queen (ai : AIState) (tokens : List Token) (t : Token) : Nat :=
  let queen := tokens.getD (ai.queenIndex t.color) default
  let distance := ((t.row : Int) - (queen.row : Int)).natAbs
    + ((t.column : Int) - (queen.column : Int)).natAbs
  max 1 distance

/-- AI.evaluate_state(): sentinel values when a queen is destroyed,
otherwise the signed defender and deflector terms.  The source selects
defenders and deflectors through the name arrays snapshotted in
AI.__init__; token names are assigned once in the constructors and never
written again, so the snapshot always equals the current names. -/
def evaluate_state (ai : AIState) (g : GameState) : ℚ :=
  let tokens := g.tokens
  if (tokens.getD (ai.queenIndex ai.color) default).destroyed then
    -10000000000
  else if (tokens.getD (ai.queenIndex ai.adversial_color) default).destroyed then
    10000000000
  else
    let v1 := (tokens.filter (fun t => decide (t.name = .defender))).foldl
      (fun value defender =>
        if ¬defender.destroyed then
          let f : ℚ := if defender.color = ai.color then 1 else -1
          value + f * 10000 / (distance_to_queen ai tokens defender : ℚ)
        else
          value) 0
    (tokens.filter (fun t => decide (t.name = .deflector))).foldl
      (fun value deflector =>
        if ¬deflector.destroyed then
          let f : ℚ := if deflector.color = ai.color then 1 else -1
          value + f * 75000
        else
          value) v1

/-- What a minimax call hands back: internal calls return the numeric
evaluation, the root call returns the chosen action. -/
inductive MRes
  | eval (q : ℚ)
  | act (a : Action)
deriving DecidableEq, Inhabited

mutual

/-- AI.minimax(depth, max_plays, alpha, beta), threading the mutated Game
state.  none models a Python execution that does not return normally:
fuel exhaustion (the beam resolver or the recursion still running), an
undo of an empty log, or the UnboundLocalError the source raises when the
root has no action to return. -/
def minimax (fuel : Nat) (ai : AIState) (s : GameState) (depth : Nat)
    (max_plays : Bool) (alpha beta : ℚ) : Option (GameState × MRes) :=
  match fuel with
  | 0 => none
  | n + 1 =>
      if depth > ai.depth_limit then
        some (s, .eval (evaluate_state ai s))
      else
        let acting := if max_plays then ai.color else ai.adversial_color
        let start : ℚ := if max_plays then -20000000000 else 20000000000
        match minimaxLoop n ai (getAllPossibleActions s acting) s depth max_plays
            start none alpha beta with
        | none => none
        | some (s', best, bestAct) =>
            if depth = 0 then
              match bestAct with
              | some a => some (s', .act a)
              | none => none
            else
              some (s', .eval best)

/-- The for loop over possible_actions inside AI.minimax: apply the
action, fire the acting color's laser, recurse, undo once, update the
running extremum / best action / alpha or beta, and break when
beta < alpha. -/
def minimaxLoop (fuel : Nat) (ai : AIState) (actions : List Action) (s : GameState)
    (depth : Nat) (max_plays : Bool) (best : ℚ) (bestAct : Option Action)
    (alpha beta : ℚ) : Option (GameState × ℚ × Option Action) :=
  match fuel, actions with
  | _, [] => some (s, best, bestAct)
  | 0, _ :: _ => none
  | n + 1, a :: rest =>
      let acting := if max_plays then ai.color else ai.adversial_color
      let s1 := doAction s a
      match activate_laser n s1 acting with
      | (_, false) => none
      | (s2, true) =>
          match minimax n ai s2 (depth + 1) (!max_plays) alpha beta with
          | none => none
          | some (_, .act _) => none
          | some (s3, .eval evaluation) =>
              match undoLastEvent s3 with
              | none => none
              | some s4 =>
                  if max_plays then
                    let best' := if evaluation > best then evaluation else best
                    let bestAct' := if evaluation > best then some a else bestAct
                    let alpha' := max alpha evaluation
                    if beta < alpha' then
                      some (s4, best', bestAct')
                    else
                      minimaxLoop n ai rest s4 depth max_plays best' bestAct' alpha' beta
                  else
                    let best' := if evaluation < best then evaluation else best
                    let bestAct' := if evaluation < best then some a else bestAct
                    let beta' := min beta evaluation
                    if beta' < alpha then
                      some (s4, best', bestAct')
                    else
                      minimaxLoop n ai rest s4 depth max_plays best' bestAct' alpha beta'

end

/-- Board.unhighlightAllSquares(). -/
def unhighlightAllSquares (b : BoardT) : BoardT :=
  b.map (fun row => row.map (fun sq => { sq with highlighted := false }))

/-- The state a GameController keeps between clicks. -/
structure ControllerState where
  game : GameState
  selected_token : Option Nat
deriving DecidableEq, Inhabited

/-- GameController.getCurrentPlayerColor(): red on even turn counters,
blue on odd ones. -/
def getCurrentPlayerColor (g : GameState) : Color :=
  if g.turn % 2 = 0 then .red else .blue

/-- GameController.finishTurn(): fire the laser of the parity color and
advance the turn counter. -/
def finishTurn (fuel : Nat) (c : ControllerState) : ControllerState × Bool :=
  let color := if c.game.turn % 2 = 0 then Color.red else Color.blue
  let (g, ok) := activate_laser fuel c.game color
  ({ c with game := { g with turn := g.turn + 1 } }, ok)

/-- GameController.squareSelected(row, column).  On a highlighted square:
move the selected token there and finish the turn (none if no token is
selected, where Python would fail, or if the beam does not terminate).
Otherwise: clear highlights and select the clicked square's occupant —
except that the source clears the selection when the occupant's color
EQUALS the current player's color, and keeps it (highlighting its moves)
when it does not. -/
def squareSelected (fuel : Nat) (c : ControllerState) (row column : Nat) :
    Option ControllerState :=
  if (getSquare c.game.board row column).highlighted then
    match c.selected_token with
    | none => none
    | some i =>
        let g1 := moveToken c.game i row column true
        let (c2, ok) := finishTurn fuel { c with game := g1 }
        if ok then
          some { c2 with
                 game := { c2.game with board := unhighlightAllSquares c2.game.board },
                 selected_token := none }
        else
          none
  else
    let g1 := { c.game with board := unhighlightAllSquares c.game.board }
    match (getSquare g1.board row column).inhabiting_token with
    | none => some { game := g1, selected_token := none }
    | some i =>
        if (getToken g1 i).color = getCurrentPlayerColor g1 then
          some { game := g1, selected_token := none }
        else
          let moves := getPossibleMoves { g1 with board := g1.board } i
          let b2 := moves.foldl (fun b rc => setHighlighted b rc.1 rc.2 true) g1.board
          some { game := { g1 with board := b2 }, selected_token := some i }

/-- Board.__init__: 8 x 10 squares; column 0 red, column 9 blue, columns
8 and 1 red/blue on the first and last rows, all else neutral. -/
def initBoard : BoardT :=
  (List.range 8).map (fun i => (List.range 10).map (fun j =>
    let color :=
      if j = 0 ∨ (j = 8 ∧ (i = 0 ∨ i = 7)) then Color.red
      else if j = 9 ∨ (j = 1 ∧ (i = 0 ∨ i = 7)) then Color.blue
      else Color.none
    { color := color, inhabiting_token := none, highlighted := false }))

/-- Game.arrangeTokens over a token list: each non-destroyed token
occupies its square (a destroyed piece occupies no square; at
construction every token is alive, so this is exactly arrangeTokens). -/
def placeAlive (tokens : List Token) (b : BoardT) : BoardT :=
  (List.range tokens.length).foldl (fun bb i =>
    let t := tokens.getD i default
    if t.destroyed then bb else setInh bb t.row t.column (some i)) b

/-- A game state over a token list: tokens arranged on the fixed board,
empty log, turn 0. -/
def mkState (tokens : List Token) : GameState :=
  { board := placeAlive tokens initBoard
    tokens := tokens
    log := []
    turn := 0
    positions_log := [] }

/-- An alive token. -/
def tok (n : TokenName) (r c : Nat) (col : Color) (o : Orientation) : Token :=
  { name := n, row := r, column := c, color := col, destroyed := false, orientation := o }

/-- A destroyed token (retained in the collection, off the board). -/
def deadTok (n : TokenName) (r c : Nat) (col : Color) (o : Orientation) : Token :=
  { name := n, row := r, column := c, color := col, destroyed := true, orientation := o }

/-- The 26 tokens of Game.__init__, in source order. -/
def initTokens : List Token :=
  [ tok .laser 0 0 .red .down,
    tok .queen 0 5 .red .up,
    tok .defender 0 4 .red .down,
    tok .defender 0 6 .red .down,
    tok .deflector 0 7 .red .down,
    tok .deflector 1 2 .red .left,
    tok .deflector 3 0 .red .right,
    tok .deflector 3 7 .red .down,
    tok .deflector 4 0 .red .down,
    tok .deflector 4 7 .red .right,
    tok .deflector 5 6 .red .down,
    tok .switch 3 4 .red .right,
    tok .switch 3 5 .red .down,
    tok .laser 7 9 .blue .up,
    tok .queen 7 4 .blue .up,
    tok .defender 7 3 .blue .up,
    tok .defender 7 5 .blue .up,
    tok .deflector 7 2 .blue .up,
    tok .deflector 6 7 .blue .right,
    tok .deflector 4 2 .blue .up,
    tok .deflector 4 9 .blue .left,
    tok .deflector 3 2 .blue .left,
    tok .deflector 3 9 .blue .up,
    tok .deflector 2 3 .blue .up,
    tok .switch 4 4 .blue .up,
    tok .switch 4 5 .blue .left ]

/-- Game.__init__: the freshly constructed game. -/
def initGame : GameState :=
  mkState initTokens

/-- The controller state right after GameController.start. -/
def initController : ControllerState :=
  { game := initGame, selected_token := none }

/-- A small mid-game position: the red emitter, a destroyed red queen, a
blue deflector on row 0 in the path of a rightward red beam, the blue
queen and the blue emitter.  Red's only legal action is rotating its
emitter (a laser has no moves, the destroyed queen generates nothing). -/
def smallGame : GameState :=
  mkState
    [ tok .laser 0 0 .red .down,
      deadTok .queen 6 6 .red .up,
      tok .deflector 0 3 .blue .left,
      tok .queen 7 5 .blue .up,
      tok .laser 7 9 .blue .up ]

/-- A position where blue has no token left alive: every blue action list
is empty while red still has pieces. -/
def stalemateGame : GameState :=
  mkState
    [ tok .laser 0 0 .red .down,
      tok .queen 0 5 .red .up,
      deadTok .queen 7 4 .blue .up,
      deadTok .laser 7 9 .blue .up ]

/-- A position where the red emitter, pointing down, fires straight into
a switch: 5 pieces on the board. -/
def switchGame : GameState :=
  mkState
    [ tok .laser 0 0 .red .down,
      tok .switch 3 0 .red .right,
      tok .queen 0 5 .red .up,
      tok .queen 7 4 .blue .up,
      tok .laser 7 9 .blue .up ]

/-- A position where the red emitter, rotated right, fires into a
deflector oriented up: the scenario of the spec's table row
(incoming right, orientation up). -/
def deflectorGame : GameState :=
  mkState
    [ tok .laser 0 0 .red .right,
      tok .deflector 0 4 .blue .up,
      tok .queen 5 5 .red .up,
      tok .queen 7 4 .blue .up,
      tok .laser 7 9 .blue .up ]

/-- A position where the blue emitter, rotated left, fires into a
deflector oriented up: the scenario (incoming left, orientation up). -/
def deflectorGame2 : GameState :=
  mkState
    [ tok .laser 0 0 .red .down,
      tok .deflector 7 3 .red .up,
      tok .queen 5 5 .red .up,
      tok .queen 6 6 .blue .up,
      tok .laser 7 9 .blue .left ]

/-- A position holding just the red emitter (orientation right), used to
exercise hitToken on an emitter. -/
def laserHitGame : GameState :=
  mkState [ tok .laser 0 0 .red .right ]

/-- The 8 (incoming direction, orientation) pairs on which the else
branch of Game.is_destroyed (covering deflectors and laser emitters)
reflects instead of destroying. -/
def deflectorReflects (d o : Orientation) : Bool :=
  decide ((d = .right ∧ o = .left) ∨ (d = .right ∧ o = .up)
    ∨ (d = .left ∧ o = .right) ∨ (d = .left ∧ o = .down)
    ∨ (d = .up ∧ o = .down) ∨ (d = .up ∧ o = .left)
    ∨ (d = .down ∧ o = .up) ∨ (d = .down ∧ o = .right))

/-- C1: refuted as stated.  In smallGame, red's single legal action (the
emitter rotation) followed by activate_laser destroys the blue deflector
at (0,3); the one subsequent undoLastEvent chains through the destruction
entry and restores every token field and empties the log, but the
destroyed piece's square is left empty instead of reoccupied, so the
pre-action board occupancy is not restored. -/
theorem undo_leaves_square_empty :
    (Action.rotation 0 .right) ∈ getAllPossibleActions smallGame .red ∧
    (activate_laser 32 (doAction smallGame (.rotation 0 .right)) .red).2 = true ∧
    (undoLastEvent (activate_laser 32 (doAction smallGame (.rotation 0 .right)) .red).1).map
        (fun s => (decide (s.tokens = smallGame.tokens), s.log,
          (getSquare s.board 0 3).inhabiting_token))
      = some (true, [], none) ∧
    (getSquare smallGame.board 0 3).inhabiting_token = some 2 := by
  decide

set_option maxHeartbeats 600000 in
/-- C2: refuted.  In switchGame (5 pieces) the red emitter's beam strikes
a switch; Game.reflect_beam restarts the scan at the struck token's own
square, so the beam bounces between the switch and itself forever: after
22 resolver calls it has recorded at least 8 strike positions (more than
the number of pieces on the board, so more than N reflections) and has
still not resolved. -/
theorem beam_self_bounce_unbounded :
    (activate_laser 22 switchGame .red).2 = false ∧
    switchGame.tokens.length = 5 ∧
    8 ≤ (activate_laser 22 switchGame .red).1.positions_log.length := by
  decide

/-- C3: refuted in its first half.  A beam travelling right into a
deflector oriented up takes the reflect branch, but the continuation scan
starts at the deflector's own square, re-strikes the deflector from
direction up and destroys it (clearing its square) instead of travelling
on; the second half (struck from the left, orientation up, destroyed)
does hold. -/
theorem deflector_self_destructs :
    (getToken deflectorGame 1).orientation = .up ∧
    (activate_laser 16 deflectorGame .red).2 = true ∧
    (getToken (activate_laser 16 deflectorGame .red).1 1).destroyed = true ∧
    (getSquare (activate_laser 16 deflectorGame .red).1.board 0 4).inhabiting_token = none ∧
    (activate_laser 16 deflectorGame2 .blue).2 = true ∧
    (getToken (activate_laser 16 deflectorGame2 .blue).1 1).destroyed = true := by
  decide

/-- C4: counterexample.  Game.is_destroyed has no case for the laser
emitter, which therefore falls into the deflector branch: an emitter
oriented right struck by a beam travelling up is marked destroyed and its
square is cleared by hitToken. -/
theorem emitter_destroyed_by_hit :
    (getToken laserHitGame 0).name = .laser ∧
    is_destroyed (tok .laser 0 0 .red .right) .up = true ∧
    (hitToken 8 laserHitGame 0 .up).2 = true ∧
    (getToken (hitToken 8 laserHitGame 0 .up).1 0).destroyed = true ∧
    (getSquare (hitToken 8 laserHitGame 0 .up).1.board 0 0).inhabiting_token = none := by
  decide

/-- C4 amended: a beam hit on a laser emitter destroys it exactly when
the (incoming direction, orientation) pair lies outside the deflector
reflect set; on the 8 reflect pairs Game.reflect has no branch for an
emitter, so the beam is simply absorbed and the emitter survives. -/
theorem emitter_hit_characterization :
    (∀ (t : Token) (d : Orientation), t.name = .laser →
      is_destroyed t d = !deflectorReflects d t.orientation) ∧
    (∀ (n : Nat) (s : GameState) (i : Nat) (d : Orientation),
      (getToken s i).name = .laser → reflect (n + 1) s i d = (s, true)) := by
  constructor
  · intro t d h
    rcases t with ⟨nm, r, c, col, ds, o⟩
    simp only [Token.name] at h
    subst h
    cases d <;> cases o <;> rfl
  · intro n s i d h
    simp only [reflect, h]

/-- C4 amended, witness: the emitter oriented down struck from direction
up (a reflect pair) is not destroyed, while oriented right struck from up
(a destroy pair) is; a reflect call on the emitter of laserHitGame
absorbs the beam. -/
theorem emitter_hit_characterization_witness :
    is_destroyed (tok .laser 0 0 .red .down) .up
        = !deflectorReflects .up (tok .laser 0 0 .red .down).orientation ∧
    is_destroyed (tok .laser 0 0 .red .right) .up
        = !deflectorReflects .up (tok .laser 0 0 .red .right).orientation ∧
    reflect 3 laserHitGame 0 .left = (laserHitGame, true) :=
  ⟨emitter_hit_characterization.1 (tok .laser 0 0 .red .down) .up rfl,
   emitter_hit_characterization.1 (tok .laser 0 0 .red .right) .up rfl,
   emitter_hit_characterization.2 2 laserHitGame 0 .left (by decide)⟩

/-- C5: refuted.  On the fresh game (turn 0, red to move), clicking the
blue queen's square keeps it selected (and highlights its moves), while
clicking red's own defender clears the selection: the controller's color
test accepts exactly the pieces NOT belonging to the side to move. -/
theorem selection_check_inverted :
    initGame.turn % 2 = 0 ∧
    (getToken initGame 14).color = .blue ∧
    (getToken initGame 2).color = .red ∧
    (squareSelected 8 initController 7 4).map (fun c => c.selected_token)
      = some (some 14) ∧
    (squareSelected 8 initController 0 4).map (fun c => c.selected_token)
      = some none := by
  decide

/-- C6: refuted.  At a minimizing node of stalemateGame (depth 1, within
the depth limit 1) blue has no legal actions; minimax returns the
untouched +2e10 alpha-beta sentinel instead of the static evaluation,
which is +1e10 here. -/
theorem empty_node_returns_sentinel :
    getAllPossibleActions stalemateGame .blue = [] ∧
    minimax 16 (mkAI stalemateGame .red 1) stalemateGame 1 false
        (-20000000000) 20000000000
      = some (stalemateGame, .eval 20000000000) ∧
    evaluate_state (mkAI stalemateGame .red 1) stalemateGame = 10000000000 ∧
    (20000000000 : ℚ) ≠ 10000000000 := by
  decide

/-- C7: refuted.  A root minimax call on smallGame (depth limit 0)
returns the emitter rotation; the event log is back to its pre-call
length and all token fields are restored, but the blue deflector the
lookahead beam destroyed was never put back on its square, so the board
occupancy differs from the pre-call baseline. -/
theorem minimax_corrupts_board :
    (minimax 64 (mkAI smallGame .red 0) smallGame 0 true
        (-20000000000) 20000000000).map
      (fun p => ((getSquare p.1.board 0 3).inhabiting_token, p.1.log,
        decide (p.1.tokens = smallGame.tokens), p.2))
      = some (none, [], true, .act (.rotation 0 .right)) ∧
    (getSquare smallGame.board 0 3).inhabiting_token = some 2 := by
  decide

/-- C8: a beam hit on a Queen always destroys it, a beam hit on a Switch
never does — is_destroyed is constantly true for queens and constantly
false for switches, and hitToken on a switch takes the reflect branch
(after recording the struck position) rather than the destruction
branch. -/
theorem queen_switch_hit_contract :
    (∀ (t : Token) (d : Orientation), t.name = .queen → is_destroyed t d = true) ∧
    (∀ (t : Token) (d : Orientation), t.name = .switch → is_destroyed t d = false) ∧
    (∀ (n : Nat) (s : GameState) (i : Nat) (d : Orientation),
      (getToken s i).name = .switch →
      hitToken (n + 1) s i d
        = reflect n
            (pushPos s [.pos ((getToken s i).row : Int) ((getToken s i).column : Int)])
            i d) := by
  refine ⟨?_, ?_, ?_⟩
  · intro t d h
    simp [is_destroyed, h]
  · intro t d h
    simp [is_destroyed, h]
  · intro n s i d h
    simp [hitToken, is_destroyed, h]

/-- C8 witness: instances of the three statements at the concrete queen
and switch of switchGame. -/
theorem queen_switch_hit_contract_witness :
    is_destroyed (tok .queen 0 5 .red .up) .left = true ∧
    is_destroyed (tok .switch 3 0 .red .right) .down = false ∧
    hitToken 1 switchGame 1 .down
      = reflect 0 (pushPos switchGame [.pos 3 0]) 1 .down :=
  ⟨queen_switch_hit_contract.1 (tok .queen 0 5 .red .up) .left rfl,
   queen_switch_hit_contract.2.1 (tok .switch 3 0 .red .right) .down rfl,
   queen_switch_hit_contract.2.2 0 switchGame 1 .down (by decide)⟩

/-- C10: on a deflector, defender or switch, rotateClockwise steps the
orientation value to (current - 1) mod 4 and rotateAntiClockwise to
(current + 1) mod 4; on a laser emitter both produce the single paired
orientation (right paired with down, left paired with up). -/
theorem rotate_step_contract :
    ∀ (t : Token),
      ((t.name = .deflector ∨ t.name = .defender ∨ t.name = .switch) →
        rotateClockwise t
          = some { t with orientation :=
              Orientation.ofVal ((((t.orientation.val : Int) - 1) % 4).toNat) } ∧
        rotateAntiClockwise t
          = some { t with orientation :=
              Orientation.ofVal ((((t.orientation.val : Int) + 1) % 4).toNat) }) ∧
      (t.name = .laser →
        rotateClockwise t = some { t with orientation := laserRotationOf t.orientation } ∧
        rotateAntiClockwise t = rotateClockwise t) := by
  intro t
  rcases t with ⟨nm, r, c, col, ds, o⟩
  constructor
  · intro h
    simp only [Token.name] at h
    rcases h with h | h | h <;> subst h <;> exact ⟨rfl, rfl⟩
  · intro h
    simp only [Token.name] at h
    subst h
    exact ⟨rfl, rfl⟩

/-- C10 witness: the contract applied to the red deflector at (1,2)
(orientation left: clockwise gives up, anti-clockwise gives down) and to
the red emitter (orientation down: both rotations give right). -/
theorem rotate_step_contract_witness :
    rotateClockwise (tok .deflector 1 2 .red .left)
        = some { tok .deflector 1 2 .red .left with orientation := .up } ∧
    rotateAntiClockwise (tok .deflector 1 2 .red .left)
        = some { tok .deflector 1 2 .red .left with orientation := .down } ∧
    rotateClockwise (tok .laser 0 0 .red .down)
        = some { tok .laser 0 0 .red .down with orientation := .right } ∧
    rotateAntiClockwise (tok .laser 0 0 .red .down)
        = rotateClockwise (tok .laser 0 0 .red .down) := by
  have h1 := (rotate_step_contract (tok .deflector 1 2 .red .left)).1 (Or.inl rfl)
  have h2 := (rotate_step_contract (tok .laser 0 0 .red .down)).2 rfl
  exact ⟨h1.1, h1.2, h2.1, h2.2⟩

/-- The opponent of a color, per the spec's two-player pairing (the same
expression AI.__init__ uses to derive the adversary color). -/
def specOpponent (c : Color) : Color :=
  if c = .red then .blue else .red

/-- The Queen token of a color, per the spec's "that color's Queen" (the
first queen of that color in the collection; the data model keeps exactly
one per color). -/
def specQueen (g : GameState) (c : Color) : Option Token :=
  g.tokens.find? (fun t => decide (t.name = .queen ∧ t.color = c))

/-- Spec-side static evaluation, following the words of the spec: a large
negative sentinel when the searching color's Queen is destroyed, else a
large positive sentinel when the opponent's Queen is destroyed, else the
sum over every non-destroyed Defender of a signed term of magnitude 10000
divided by the Manhattan distance from that Defender to the Queen of the
Defender's own color (floored at 1), plus a flat signed term of magnitude
75000 for every non-destroyed Deflector, the sign positive exactly when
the piece's color matches the searching color. -/
def specEvaluation (g : GameState) (c : Color) : ℚ :=
  if ((specQueen g c).getD default).destroyed then
    -10000000000
  else if ((specQueen g (specOpponent c)).getD default).destroyed then
    10000000000
  else
    ((g.tokens.filter (fun t => decide (t.name = .defender ∧ t.destroyed = false))).map
      (fun t =>
        let q := (specQueen g t.color).getD default
        let dist : Nat := max 1 (((t.row : Int) - (q.row : Int)).natAbs
          + ((t.column : Int) - (q.column : Int)).natAbs)
        (if t.color = c then (1 : ℚ) else -1) * 10000 / (dist : ℚ))).sum
    + ((g.tokens.filter (fun t => decide (t.name = .deflector ∧ t.destroyed = false))).map
      (fun t => (if t.color = c then (1 : ℚ) else -1) * 75000)).sum

/-- Indexing at findIdx retrieves the element find? returns, whenever the
predicate matches somewhere. -/
theorem getD_findIdx_eq_findP {a : Type} (l : List a) (p : a -> Bool) (d : a)
    (h : (l.find? p).isSome) :
    l.getD (l.findIdx p) d = (l.find? p).getD d := by
  induction l with
  | nil => simp at h
  | cons x t ih =>
      by_cases hp : p x
      . rw [List.findIdx_cons]
        simp only [hp, cond_true]
        rw [List.find?_cons_of_pos _ hp]
        simp
      . have hpf : p x = false := by simpa using hp
        rw [List.find?_cons_of_neg _ hp] at h
        rw [List.findIdx_cons, hpf, cond_false, List.getD_cons_succ,
          List.find?_cons_of_neg _ hp]
        exact ih h

/-- Folding a destroyed-guarded accumulation equals adding the sum of the
mapped values over the non-destroyed elements. -/
theorem foldl_guard_eq_sum (l : List Token) (f : Token -> Rat) (init : Rat) :
    l.foldl (fun v t => if ¬t.destroyed then v + f t else v) init
      = init + ((l.filter (fun t => !t.destroyed)).map f).sum := by
  induction l generalizing init with
  | nil => simp
  | cons x t ih =>
      simp only [List.foldl_cons]
      cases hd : x.destroyed
      . rw [if_pos (by simp [hd])]
        rw [ih]
        simp [List.filter_cons, hd]
        ring
      . rw [if_neg (by simp [hd])]
        rw [ih]
        simp [List.filter_cons, hd]

/-- Pointwise equal functions map equally. -/
theorem map_congr_mem {a b : Type} (l : List a) (f g : a -> b)
    (h : forall x, x ∈ l -> f x = g x) : l.map f = l.map g := by
  induction l with
  | nil => rfl
  | cons x t ih =>
      simp only [List.map_cons, h x (List.mem_cons_self x t),
        ih (fun y hy => h y (List.mem_cons_of_mem x hy))]

/-- Filtering by name and then by the alive flag equals the spec-side
single filter. -/
theorem filter_name_alive (l : List Token) (nm : TokenName) :
    (l.filter (fun t => decide (t.name = nm))).filter (fun t => !t.destroyed)
      = l.filter (fun t => decide (t.name = nm ∧ t.destroyed = false)) := by
  induction l with
  | nil => rfl
  | cons x t ih =>
      by_cases h1 : x.name = nm
      . cases h2 : x.destroyed
        . simp [List.filter_cons, h1, h2, ih]
        . simp [List.filter_cons, h1, h2, ih]
      . simp [List.filter_cons, h1, ih]

/-- C9: the code's static evaluation agrees with the evaluation the spec
describes, for either searching color, on any state whose tokens are all
red or blue and that holds a queen of each color. -/
theorem evaluate_state_matches_spec (g : GameState) (c : Color)
    (hc : c = .red ∨ c = .blue)
    (hcol : ∀ t ∈ g.tokens, t.color = .red ∨ t.color = .blue)
    (hqr : (g.tokens.find? (fun t => decide (t.name = .queen ∧ t.color = .red))).isSome)
    (hqb : (g.tokens.find? (fun t => decide (t.name = .queen ∧ t.color = .blue))).isSome)
    (dl : Nat) :
    evaluate_state (mkAI g c dl) g = specEvaluation g c := by
  have hR : g.tokens.getD
        (g.tokens.findIdx (fun t => decide (t.name = .queen ∧ t.color = .red))) default
      = (specQueen g .red).getD default := by
    simpa [specQueen] using
      getD_findIdx_eq_findP g.tokens (fun t => decide (t.name = .queen ∧ t.color = .red))
        default hqr
  have hB : g.tokens.getD
        (g.tokens.findIdx (fun t => decide (t.name = .queen ∧ t.color = .blue))) default
      = (specQueen g .blue).getD default := by
    simpa [specQueen] using
      getD_findIdx_eq_findP g.tokens (fun t => decide (t.name = .queen ∧ t.color = .blue))
        default hqb
  rcases hc with rfl | rfl
  . have Lqr : (mkAI g .red dl).queenIndex .red
        = g.tokens.findIdx (fun t => decide (t.name = .queen ∧ t.color = .red)) := rfl
    have Lqb : (mkAI g .red dl).queenIndex .blue
        = g.tokens.findIdx (fun t => decide (t.name = .queen ∧ t.color = .blue)) := rfl
    have Lc : (mkAI g .red dl).color = .red := rfl
    have La : (mkAI g .red dl).adversial_color = .blue := rfl
    have Lso : specOpponent Color.red = Color.blue := rfl
    simp only [evaluate_state, specEvaluation, Lso, Lc, La, Lqr, Lqb, hR, hB]
    refine if_congr Iff.rfl rfl (if_congr Iff.rfl rfl ?_)
    rw [foldl_guard_eq_sum, foldl_guard_eq_sum, filter_name_alive, filter_name_alive,
      zero_add]
    congr 1
    refine congrArg List.sum (map_congr_mem _ _ _ ?_)
    intro t ht
    have htok : t ∈ g.tokens := List.mem_of_mem_filter ht
    rcases hcol t htok with hcr | hcb
    . simp only [distance_to_queen, hcr, Lqr, hR]
    . simp only [distance_to_queen, hcb, Lqb, hB]
  . have Lqr : (mkAI g .blue dl).queenIndex .red
        = g.tokens.findIdx (fun t => decide (t.name = .queen ∧ t.color = .red)) := rfl
    have Lqb : (mkAI g .blue dl).queenIndex .blue
        = g.tokens.findIdx (fun t => decide (t.name = .queen ∧ t.color = .blue)) := rfl
    have Lc : (mkAI g .blue dl).color = .blue := rfl
    have La : (mkAI g .blue dl).adversial_color = .red := rfl
    have Lso : specOpponent Color.blue = Color.red := rfl
    simp only [evaluate_state, specEvaluation, Lso, Lc, La, Lqr, Lqb, hR, hB]
    refine if_congr Iff.rfl rfl (if_congr Iff.rfl rfl ?_)
    rw [foldl_guard_eq_sum, foldl_guard_eq_sum, filter_name_alive, filter_name_alive,
      zero_add]
    congr 1
    refine congrArg List.sum (map_congr_mem _ _ _ ?_)
    intro t ht
    have htok : t ∈ g.tokens := List.mem_of_mem_filter ht
    rcases hcol t htok with hcr | hcb
    . simp only [distance_to_queen, hcr, Lqr, hR]
    . simp only [distance_to_queen, hcb, Lqb, hB]

/-- C9 witness: the hypotheses and the conclusion at the freshly
constructed game, searching for red. -/
theorem evaluate_state_matches_spec_witness :
    ((Color.red = Color.red ∨ Color.red = Color.blue) ∧
     (∀ t ∈ initGame.tokens, t.color = .red ∨ t.color = .blue) ∧
     (initGame.tokens.find? (fun t => decide (t.name = .queen ∧ t.color = .red))).isSome ∧
     (initGame.tokens.find? (fun t => decide (t.name = .queen ∧ t.color = .blue))).isSome) ∧
    evaluate_state (mkAI initGame .red 1) initGame = specEvaluation initGame .red :=
  ⟨⟨Or.inl rfl, by decide, by decide, by decide⟩,
   evaluate_state_matches_spec initGame .red (Or.inl rfl) (by decide) (by decide)
     (by decide) 1⟩

end LaserChess
